import Mathlib

/-
  Shallow embedding of the core of bonobos/tap-facebook
  (src/tap_facebook/__init__.py) and proofs about it.

  Conventions of the embedding:
  * Python scalar values are modelled by `PyVal`; Python floats are modelled
    as exact rationals (no claim below depends on binary rounding).
  * Python exceptions are modelled by `PyErr`; fallible code returns
    `Except PyErr _`.  The source file's shebang is python3, so builtin
    exceptions have no `.message` attribute: accessing it raises
    AttributeError (this matters for `transform_fields`).
  * Calendar dates and datetimes are modelled as integers (days for dates,
    seconds for job-polling durations); `pendulum` comparisons on parsed
    date strings agree with integer comparison on the modelled values.
  * Dictionaries with string keys are modelled as association lists in
    insertion order; assignment replaces in place or appends at the end,
    matching CPython dict semantics.
-/

namespace TapFacebook

/-- Python scalar values as they occur in rows and transformed records. -/
inductive PyVal where
  | pyNone
  | pyBool (b : Bool)
  | pyInt (n : Int)
  | pyFloat (q : Rat)
  | pyStr (s : String)
deriving DecidableEq, Repr

/-- Python exceptions raised by the embedded code, tagged by builtin class.
`insightsJobTimeout` models the tap's own `InsightsJobTimeout(Exception)`
class (source line 213), which is defined but raised nowhere. -/
inductive PyErr where
  | valueError (msg : String)
  | typeError (msg : String)
  | keyError (key : String)
  | attributeError (msg : String)
  | genericException (msg : String)
  | insightsJobTimeout (msg : String)
deriving DecidableEq, Repr

/-- The Python class name of a modelled exception; two failures are
"distinct, named failure types" exactly when their class names differ. -/
def PyErr.className : PyErr → String
  | .valueError _ => "ValueError"
  | .typeError _ => "TypeError"
  | .keyError _ => "KeyError"
  | .attributeError _ => "AttributeError"
  | .genericException _ => "Exception"
  | .insightsJobTimeout _ => "InsightsJobTimeout"

/-- Python truthiness (`bool(value)`) on the modelled scalars. -/
def pyTruthy : PyVal → Bool
  | .pyNone => false
  | .pyBool b => b
  | .pyInt n => n != 0
  | .pyFloat q => q != 0
  | .pyStr s => s != ""

/-- Digits of a decimal literal to a natural number; `none` when the
character list is empty or contains a non-digit. -/
def digitsToNat : List Char → Option Nat
  | [] => none
  | cs =>
    cs.foldl
      (fun acc c =>
        match acc with
        | none => none
        | some n => if c.isDigit then some (n * 10 + (c.toNat - 48)) else none)
      (some 0)

/-- Whitespace stripping on both ends of a character list (the kernel of
Python's tolerance for `int(" 42 ")`). -/
def charsTrim (cs : List Char) : List Char :=
  ((cs.dropWhile Char.isWhitespace).reverse.dropWhile Char.isWhitespace).reverse

/-- Split a character list at the first dot, when there is exactly zero or
one dot; `none` when two or more dots occur. -/
def splitAtDot (cs : List Char) : Option (List Char × Option (List Char)) :=
  match cs with
  | [] => some ([], none)
  | c :: rest =>
    match splitAtDot rest with
    | none => none
    | some (a, b) =>
      if c = '.' then
        match b with
        | none => some ([], some a)
        | some _ => none
      else some (c :: a, b)

/-- Python `int(s)` on a string: optional surrounding whitespace, optional
sign, decimal digits; anything else raises ValueError.  (Underscored
literals of Python 3.6+ are not modelled; no claim uses them.) -/
def int_of_string (s : String) : Option Int :=
  match charsTrim s.toList with
  | '-' :: rest => (digitsToNat rest).map (fun n => -(n : Int))
  | '+' :: rest => (digitsToNat rest).map (fun n => (n : Int))
  | cs => (digitsToNat cs).map (fun n => (n : Int))

/-- Python `float(s)` on a string: optional sign and a decimal literal with
an optional fractional part.  (Exponents, `inf` and `nan` are not modelled;
no claim uses them.) -/
def float_of_string (s : String) : Option Rat :=
  let parse := fun (cs : List Char) =>
    match splitAtDot cs with
    | some (a, none) => (digitsToNat a).map (fun n => (n : Rat))
    | some (a, some b) =>
      if a.isEmpty && b.isEmpty then none
      else
        match digitsToNat (if a.isEmpty then ['0'] else a),
              digitsToNat (if b.isEmpty then ['0'] else b) with
        | some n, some f => some ((n : Rat) + (f : Rat) / ((10 : Rat) ^ b.length))
        | _, _ => none
    | none => none
  match charsTrim s.toList with
  | '-' :: rest => (parse rest).map (fun q => -q)
  | '+' :: rest => parse rest
  | cs => parse cs

/-- Python `int(value)`: exact integral conversion.  Floats truncate toward
zero; non-numeric strings and None raise. -/
def py_int : PyVal → Except PyErr PyVal
  | .pyBool b => .ok (.pyInt (if b then 1 else 0))
  | .pyInt n => .ok (.pyInt n)
  | .pyFloat q => .ok (.pyInt (if 0 ≤ q then q.floor else q.ceil))
  | .pyStr s =>
    match int_of_string s with
    | some n => .ok (.pyInt n)
    | none => .error (.valueError ("invalid literal for int with base 10: " ++ s))
  | .pyNone => .error (.typeError "int argument must be a string or a number, not NoneType")

/-- Python `float(value)`: floating-point conversion, modelled exactly over
the rationals. -/
def py_float : PyVal → Except PyErr PyVal
  | .pyBool b => .ok (.pyFloat (if b then 1 else 0))
  | .pyInt n => .ok (.pyFloat (n : Rat))
  | .pyFloat q => .ok (.pyFloat q)
  | .pyStr s =>
    match float_of_string s with
    | some q => .ok (.pyFloat q)
    | none => .error (.valueError ("could not convert string to float: " ++ s))
  | .pyNone => .error (.typeError "float argument must be a string or a number, not NoneType")

/-- Source lines 39-57, `transform_field(value, field_type, field_format)`:
a `date-time` format short-circuits and returns the value unmodified;
otherwise boolean coerces by truthiness, integer by `int`, number by
`float`, string is the identity, and any other type name raises
`ValueError("Unsuppported type ...")` (typo as in the source). -/
def transform_field (value : PyVal) (field_type : String)
    (field_format : Option String) : Except PyErr PyVal :=
  if field_format = some "date-time" then .ok value
  else if field_type = "boolean" then .ok (.pyBool (pyTruthy value))
  else if field_type = "integer" then py_int value
  else if field_type = "number" then py_float value
  else if field_type = "string" then .ok value
  else .error (.valueError ("Unsuppported type " ++ field_type))

/-- The JSON-schema `type` entry of one field: a single type name or a list
of type names (source lines 66-68 listify the former). -/
inductive TypeSpec where
  | one (t : String)
  | many (ts : List String)
deriving DecidableEq, Repr

/-- One field's schema entry: the optional `type` key and the optional
`format` key of the schema dict. -/
structure FieldSchema where
  typeSpec : Option TypeSpec
  formatSpec : Option String
deriving DecidableEq, Repr

/-- The listified `field_types` of source lines 66-68. -/
def TypeSpec.listify : TypeSpec → List String
  | .one t => [t]
  | .many ts => ts

/-- A raw or transformed record: a Python dict from field name to value,
as an association list in insertion order. -/
abbrev Row := List (String × PyVal)

/-- CPython dict assignment `d[k] = v`: replace in place when the key
exists, append otherwise. -/
def dictSet {α : Type} : List (String × α) → String → α → List (String × α)
  | [], k, v => [(k, v)]
  | (k0, v0) :: rest, k, v =>
    if k0 = k then (k, v) :: rest else (k0, v0) :: dictSet rest k v

/-- The Python 3 failure of the `e.message` access in source line 85:
builtin exceptions have no `message` attribute, so the aggregation join
raises AttributeError naming the first collected error's class. -/
def messageAttrError (e : PyErr) : PyErr :=
  .attributeError (e.className ++ " object has no attribute message")

/-- Source lines 76-87, the per-field coercion loop of `transform_fields`:
try each declared type in order on `row[field_name]` (a missing key raises
KeyError inside the `try`), keep the first success, collect every failure;
when no type succeeds, the `for`-`else` branch joins `e.message` over the
collected errors — which, with at least one error, raises AttributeError
under Python 3 — and with no collected errors raises the formatted
ValueError. -/
def coerce_field (row : Row) (field_name : String) (field_format : Option String) :
    List String → List PyErr → Except PyErr PyVal
  | [], errs =>
    match errs with
    | [] => .error (.valueError ("Field " ++ field_name ++ " does not match schema"))
    | e :: _ => .error (messageAttrError e)
  | t :: ts, errs =>
    let attempt :=
      match row.lookup field_name with
      | none => Except.error (PyErr.keyError field_name)
      | some v => transform_field v t field_format
    match attempt with
    | .ok v => .ok v
    | .error e => coerce_field row field_name field_format ts (errs ++ [e])

/-- Source lines 60-89, `transform_fields(row, schema)`, iterating the
schema's properties in order.  A missing `type` key raises; `"null"` is
removed from the listified types, and only when `"null"` is absent does a
missing row key raise the explicit "not in row and not null" ValueError
before the coercion loop runs. -/
def transform_fields_go (row : Row) :
    List (String × FieldSchema) → Row → Except PyErr Row
  | [], rtn => .ok rtn
  | (field_name, fs) :: rest, rtn =>
    match fs.typeSpec with
    | none => .error (.valueError ("Field " ++ field_name ++ " schema missing type"))
    | some spec =>
      let field_types := spec.listify
      if "null" ∈ field_types then
        match coerce_field row field_name fs.formatSpec (field_types.erase "null") [] with
        | .ok v => transform_fields_go row rest (dictSet rtn field_name v)
        | .error e => .error e
      else
        if row.lookup field_name = none then
          .error (.valueError (field_name ++ " not in row and not null"))
        else
          match coerce_field row field_name fs.formatSpec field_types [] with
          | .ok v => transform_fields_go row rest (dictSet rtn field_name v)
          | .error e => .error e

/-- `transform_fields` with the schema's `properties` mapping passed
directly (the source unwraps `schema["schema"]["properties"]`). -/
def transform_fields (row : Row) (properties : List (String × FieldSchema)) :
    Except PyErr Row :=
  transform_fields_go row properties []

/-- Source lines 189-211, class `State`: the start date parsed from config
and the per-stream cursor mapping parsed from the persisted state.  Dates
are modelled as integers (days); `pendulum.parse` on the serialized date
strings preserves this order. -/
structure State where
  start_date : Int
  state : List (String × Int)
deriving DecidableEq, Repr

/-- Source lines 197-201, `State._get`: the stored cursor for the stream,
or the global start date when none is recorded. -/
def State.cursor_get (st : State) (stream_name : String) : Int :=
  match st.state.lookup stream_name with
  | some d => d
  | none => st.start_date

/-- Source lines 206-211, `State.advance`: set the cursor to `date` only if
it is strictly greater than the current cursor, then return the new state
together with the `StateMessage` snapshot of the entire mapping. -/
def State.advance (st : State) (stream_name : String) (date : Int) :
    State × List (String × Int) :=
  let st2 :=
    if date > st.cursor_get stream_name then
      ⟨st.start_date, dictSet st.state stream_name date⟩
    else st
  (st2, st2.state)

/-- A sequence of `advance` calls for one fixed stream, applied in order. -/
def State.advances (st : State) (stream_name : String) (dates : List Int) : State :=
  dates.foldl (fun t d => (t.advance stream_name d).1) st

/-- Source lines 22-23: the job-start deadline, 5 minutes in seconds. -/
def INSIGHTS_MAX_WAIT_TO_START_SECONDS : Int := 5 * 60

/-- Source lines 22-23: the job-finish deadline, 30 minutes in seconds. -/
def INSIGHTS_MAX_WAIT_TO_FINISH_SECONDS : Int := 30 * 60

/-- Source lines 173-186: the default attribution windows and action
breakdowns of the `AdsInsights` attrs class. -/
def ALL_ACTION_ATTRIBUTION_WINDOWS : List String :=
  ["1d_click", "7d_click", "28d_click", "1d_view", "7d_view", "28d_view"]

/-- Source lines 182-186: default action breakdowns. -/
def ALL_ACTION_BREAKDOWNS : List String :=
  ["action_type", "action_target_id", "action_destination"]

/-- The attrs-defined configuration of one `AdsInsights` stream (source
lines 216-228): name plus the query-parameter attributes.  `fields` models
the `fields()` set computed from the annotated schema's selected flags. -/
structure AdsInsightsCfg where
  name : String
  level : Option String
  breakdowns : List String
  action_breakdowns : List String
  action_attribution_windows : List String
  time_increment : Int
  limit : Int
  fields : List String
deriving DecidableEq, Repr

/-- One `time_ranges` entry `{since, until}` of a window. -/
structure TimeRange where
  since : Int
  untilDate : Int
deriving DecidableEq, Repr

/-- One yielded parameter dict of `job_params` (source lines 239-249). -/
structure InsightsParams where
  level : Option String
  action_breakdowns : List String
  breakdowns : List String
  limit : Int
  fields : List String
  time_increment : Int
  action_attribution_windows : List String
  time_ranges : List TimeRange
deriving DecidableEq, Repr

/-- The dict built in the body of the `job_params` loop. -/
def mkJobParams (cfg : AdsInsightsCfg) (since untilDate : Int) : InsightsParams :=
  ⟨cfg.level, cfg.action_breakdowns, cfg.breakdowns, cfg.limit, cfg.fields,
    cfg.time_increment, cfg.action_attribution_windows, [⟨since, untilDate⟩]⟩

/-- Source lines 238-251, the `while until <= pendulum.now()` loop of
`job_params`, with `now` the frozen clock value: yield the window, then
advance both bounds by one day. -/
def job_params_loop (cfg : AdsInsightsCfg) (now since untilDate : Int) :
    List InsightsParams :=
  if h : untilDate ≤ now then
    mkJobParams cfg since untilDate :: job_params_loop cfg now (since + 1) (untilDate + 1)
  else []
termination_by (now + 1 - untilDate).toNat
decreasing_by omega

/-- Source lines 235-251, `AdsInsights.job_params`: `until` starts at the
stream's watermark (`pendulum.parse(self.state.get(self.name))`), `since`
at `until - 28` days.  The `backoff.on_exception` decorator on this
generator (lines 230-234) is the identity here because the loop body never
raises `InsightsJobTimeout` (see `jobParamsRetryOn`). -/
def job_params (cfg : AdsInsightsCfg) (st : State) (now : Int) : List InsightsParams :=
  let untilDate := st.cursor_get cfg.name
  job_params_loop cfg now (untilDate - 28) untilDate

/-- One polling iteration's observations in `run_job` (source lines
260-267): the elapsed `duration = time.time() - time_start` computed at the
top of the loop, and the `async_status` / `async_percent_completion` fields
freshly read by `job.remote_read()`. -/
structure JobPoll where
  duration : Int
  async_status : String
  async_percent_completion : Int
deriving DecidableEq, Repr

/-- The message of the start-timeout `Exception` raised at source lines
270-272. -/
def startTimeoutMsg (job_id : String) : String :=
  "Insights job " ++ job_id ++ " did not start after " ++
    toString INSIGHTS_MAX_WAIT_TO_START_SECONDS ++ " seconds"

/-- The message of the finish-timeout `Exception` raised at source lines
275-277. -/
def finishTimeoutMsg (job_id : String) : String :=
  "Insights job " ++ job_id ++ " did not complete after " ++
    toString INSIGHTS_MAX_WAIT_TO_FINISH_SECONDS ++ " seconds"

/-- Source lines 254-279, the polling loop of `run_job`, driven by the
finite trace of poll observations.  `status` is the loop variable checked
by `while status != "Job Completed"` (initially `None`); each iteration
consumes one observation, raises the start-timeout `Exception` when
`duration > 300` with percent still 0, else the finish-timeout `Exception`
when `duration > 1800` with status not completed, else sleeps and loops.
`none` is returned when the trace ends before the loop does (the real loop
would keep polling); the 5-second sleep is a real-time effect with no
bearing on the result. -/
def run_job (job_id : String) : Option String → List JobPoll →
    Option (Except PyErr Unit)
  | status, polls =>
    if status = some "Job Completed" then some (.ok ())
    else
      match polls with
      | [] => none
      | p :: rest =>
        if p.duration > INSIGHTS_MAX_WAIT_TO_START_SECONDS ∧
            p.async_percent_completion = 0 then
          some (.error (.genericException (startTimeoutMsg job_id)))
        else if p.duration > INSIGHTS_MAX_WAIT_TO_FINISH_SECONDS ∧
            p.async_status ≠ "Job Completed" then
          some (.error (.genericException (finishTimeoutMsg job_id)))
        else run_job job_id (some p.async_status) rest

/-- Source lines 230-234: the `backoff.on_exception` decorator's
`max_tries` argument. -/
def backoff_max_tries : Nat := 3

/-- Source lines 230-234: the `backoff.on_exception` decorator's `factor`
argument (exponential base for the sleep schedule; the sleeps themselves
are real-time effects not modelled further). -/
def backoff_factor : Nat := 2

/-- The designated retry signal of the decorator at source lines 230-234:
retry exactly on `InsightsJobTimeout`. -/
def jobParamsRetryOn : PyErr → Bool
  | .insightsJobTimeout _ => true
  | _ => false

/-- The retry semantics of `backoff.on_exception(..., max_tries, ...)`:
`attempt` numbers the calls from 0 and `fuel` counts the retries still
allowed (`max_tries - 1` initially); an error is re-raised unless the
predicate designates it for retry and fuel remains. -/
def backoff_run {α : Type} (retryOn : PyErr → Bool) (f : Nat → Except PyErr α) :
    Nat → Nat → Except PyErr α
  | attempt, fuel =>
    match f attempt with
    | .ok a => .ok a
    | .error e =>
      match fuel with
      | 0 => .error e
      | n + 1 => if retryOn e then backoff_run retryOn f (attempt + 1) n else .error e

/-- The singer messages yielded by a stream's iterator: record messages
and the `StateMessage` snapshot returned by a successful `advance`. -/
inductive Msg where
  | record (stream : String) (rec : Row)
  | stateMsg (value : List (String × Int))
deriving DecidableEq, Repr

/-- Lexicographic comparison of character lists by code point, the order
Python uses on strings. -/
def charsLt : List Char → List Char → Bool
  | [], [] => false
  | [], _ :: _ => true
  | _ :: _, [] => false
  | a :: as, b :: bs =>
    if a.toNat < b.toNat then true
    else if b.toNat < a.toNat then false
    else charsLt as bs

/-- Python comparison `a < b` on the modelled scalars: numeric kinds
(bool counts as 0 or 1) compare numerically, strings lexicographically,
and any other pairing raises TypeError, as in Python 3. -/
def pyLt : PyVal → PyVal → Except PyErr Bool
  | .pyStr a, .pyStr b => .ok (charsLt a.toList b.toList)
  | a, b =>
    let num : PyVal → Option Rat := fun v =>
      match v with
      | .pyBool x => some (if x then 1 else 0)
      | .pyInt n => some (n : Rat)
      | .pyFloat q => some q
      | _ => none
    match num a, num b with
    | some x, some y => .ok (decide (x < y))
    | _, _ => .error (.typeError "unorderable types")

/-- Source line 293 calls `self.state.update(self.name, min_date_start)`,
but class `State` (source lines 189-211) defines only `_get`, `get` and
`advance` — Python attribute lookup on the `State` instance therefore
raises AttributeError before the arguments matter. -/
def state_update (st : State) (stream_name : String) (min_date : Option PyVal) :
    Except PyErr (Msg × State) :=
  .error (.attributeError "State object has no attribute update")

/-- Source lines 289-290, the running-minimum update inside `__iter__`:
read `rec["date_start"]` (KeyError when absent), take it when
`min_date_start_for_job` is falsy (`None` or an empty string), otherwise
keep the smaller under Python `<`. -/
def window_step (min_date : Option PyVal) (rec : Row) : Except PyErr (Option PyVal) :=
  match rec.lookup "date_start" with
  | none => .error (.keyError "date_start")
  | some d =>
    match min_date with
    | none => .ok (some d)
    | some m =>
      if pyTruthy m = false then .ok (some d)
      else
        match pyLt d m with
        | .ok b => .ok (if b then some d else min_date)
        | .error e => .error e

/-- The per-record phase of one window of `AdsInsights.__iter__` (source
lines 286-292): update the running minimum, then yield the record message.
Returns the messages yielded so far, the final minimum, and the error that
interrupted the window, if any. -/
def window_iter (stream : String) (min_date : Option PyVal) :
    List Row → List Msg × Option PyVal × Option PyErr
  | [] => ([], min_date, none)
  | r :: rest =>
    match window_step min_date r with
    | .error e => ([], min_date, some e)
    | .ok m2 =>
      let (ms, mf, err) := window_iter stream m2 rest
      (Msg.record stream r :: ms, mf, err)

/-- One full window of `AdsInsights.__iter__` (source lines 283-293): drain
the job's result records, then yield the checkpoint produced by the
`self.state.update` call — which raises AttributeError (`state_update`). -/
def ads_insights_window (stream : String) (st : State) (rows : List Row) :
    List Msg × State × Option PyErr :=
  let (ms, min_final, err) := window_iter stream none rows
  match err with
  | some e => (ms, st, some e)
  | none =>
    match state_update st stream min_final with
    | .error e => (ms, st, some e)
    | .ok (m, st2) => (ms ++ [m], st2, none)

/-- Source lines 282-293, `AdsInsights.__iter__`, parameterized by the
result rows of each window's completed job (one list of rows per window
yielded by `job_params`): windows are processed strictly in order, and an
exception in one window halts the stream. -/
def ads_insights_iter (stream : String) (st : State) :
    List (List Row) → List Msg × State × Option PyErr
  | [] => ([], st, none)
  | w :: ws =>
    match ads_insights_window stream st w with
    | (ms, st2, some e) => (ms, st2, some e)
    | (ms, st2, none) =>
      let (ms2, st3, err2) := ads_insights_iter stream st2 ws
      (ms ++ ms2, st3, err2)

/-- A sample `AdsInsights` stream configuration (the `ads_insights`
breakdown of source lines 296-301 with the attrs defaults). -/
def sampleCfg : AdsInsightsCfg :=
  ⟨"ads_insights", none, [], ALL_ACTION_BREAKDOWNS, ALL_ACTION_ATTRIBUTION_WINDOWS, 1, 100, []⟩

/- Helper lemmas -/

theorem lookup_dictSet_self {α : Type} (l : List (String × α)) (k : String) (v : α) :
    (dictSet l k v).lookup k = some v := by
  induction l with
  | nil => simp [dictSet, List.lookup]
  | cons hd tl ih =>
    obtain ⟨k0, v0⟩ := hd
    by_cases h : k0 = k
    · simp [dictSet, h, List.lookup]
    · have hne : (k == k0) = false := beq_false_of_ne (fun hh => h hh.symm)
      simp only [dictSet, if_neg h, List.lookup, hne]
      exact ih

theorem advance_cursor (st : State) (s : String) (d : Int) :
    ((st.advance s d).1).cursor_get s = max (st.cursor_get s) d := by
  unfold State.advance
  by_cases h : d > st.cursor_get s
  · simp only [if_pos h]
    have h1 : State.cursor_get ⟨st.start_date, dictSet st.state s d⟩ s = d := by
      simp [State.cursor_get, lookup_dictSet_self]
    rw [h1, max_eq_right (le_of_lt h)]
  · simp only [if_neg h]
    exact (max_eq_left (le_of_not_lt h)).symm

theorem advances_cursor (st : State) (s : String) (ds : List Int) :
    (State.advances st s ds).cursor_get s = ds.foldl max (st.cursor_get s) := by
  induction ds generalizing st with
  | nil => rfl
  | cons d ds ih =>
    show (State.advances ((st.advance s d).1) s ds).cursor_get s = _
    rw [ih, List.foldl_cons, advance_cursor]

theorem le_foldl_max (a : Int) (ds : List Int) : a ≤ ds.foldl max a := by
  induction ds generalizing a with
  | nil => exact le_refl a
  | cons d ds ih => exact le_trans (le_max_left a d) (ih (max a d))

theorem mem_le_foldl_max (d : Int) (ds : List Int) (hd : d ∈ ds) :
    ∀ a, d ≤ ds.foldl max a := by
  induction hd with
  | head t => exact fun a => le_trans (le_max_right a d) (le_foldl_max _ t)
  | tail e hm ih => exact fun a => ih (max a e)

theorem foldl_max_mem (a : Int) (ds : List Int) :
    ds.foldl max a = a ∨ ds.foldl max a ∈ ds := by
  induction ds generalizing a with
  | nil => exact Or.inl rfl
  | cons d ds ih =>
    rcases ih (max a d) with h | h
    · rcases max_choice a d with hm | hm
      · exact Or.inl (by rw [List.foldl_cons, h, hm])
      · exact Or.inr (by rw [List.foldl_cons, h, hm]; exact List.mem_cons_self d ds)
    · exact Or.inr (List.mem_cons_of_mem d h)

theorem foldl_max_perm (a : Int) (ds ds2 : List Int) (hp : ds.Perm ds2) :
    ds.foldl max a = ds2.foldl max a :=
  hp.foldl_eq a

theorem job_params_loop_eq (cfg : AdsInsightsCfg) (n : Int) :
    ∀ (m : Nat) (s u : Int), (n + 1 - u).toNat = m →
    job_params_loop cfg n s u
      = (List.range m).map
          (fun k : Nat => mkJobParams cfg (s + (k : Int)) (u + (k : Int))) := by
  intro m
  induction m with
  | zero =>
    intro s u hm
    rw [job_params_loop]
    rw [dif_neg (by omega)]
    simp
  | succ m ih =>
    intro s u hm
    rw [job_params_loop, dif_pos (by omega : u ≤ n)]
    rw [List.range_succ_eq_map]
    simp only [List.map_cons, List.map_map]
    congr 1
    · norm_num
    · rw [ih (s + 1) (u + 1) (by omega)]
      refine List.map_congr_left ?_
      intro k _
      show mkJobParams cfg (s + 1 + (k : Int)) (u + 1 + (k : Int)) = _
      simp only [Function.comp]
      congr 1 <;> push_cast <;> ring

theorem run_job_not_completed_nil (job_id : String) (status : Option String)
    (hs : status ≠ some "Job Completed") : run_job job_id status [] = none := by
  unfold run_job
  rw [if_neg hs]

theorem run_job_cons (job_id : String) (status : Option String) (p : JobPoll)
    (rest : List JobPoll) (hs : status ≠ some "Job Completed") :
    run_job job_id status (p :: rest)
      = if p.duration > INSIGHTS_MAX_WAIT_TO_START_SECONDS ∧
            p.async_percent_completion = 0 then
          some (.error (.genericException (startTimeoutMsg job_id)))
        else if p.duration > INSIGHTS_MAX_WAIT_TO_FINISH_SECONDS ∧
            p.async_status ≠ "Job Completed" then
          some (.error (.genericException (finishTimeoutMsg job_id)))
        else run_job job_id (some p.async_status) rest := by
  conv_lhs => rw [run_job]
  rw [if_neg hs]

theorem run_job_error_generic (job_id : String) (polls : List JobPoll) :
    ∀ (status : Option String) (e : PyErr),
      run_job job_id status polls = some (.error e) →
      e.className = "Exception" ∧ jobParamsRetryOn e = false := by
  induction polls with
  | nil =>
    intro status e h
    by_cases hs : status = some "Job Completed"
    · unfold run_job at h
      rw [if_pos hs] at h
      simp at h
    · rw [run_job_not_completed_nil job_id status hs] at h
      simp at h
  | cons p rest ih =>
    intro status e h
    by_cases hs : status = some "Job Completed"
    · unfold run_job at h
      rw [if_pos hs] at h
      simp at h
    · rw [run_job_cons job_id status p rest hs] at h
      by_cases h1 : p.duration > INSIGHTS_MAX_WAIT_TO_START_SECONDS ∧
          p.async_percent_completion = 0
      · rw [if_pos h1] at h
        simp only [Option.some.injEq, Except.error.injEq] at h
        subst h
        exact ⟨rfl, rfl⟩
      · rw [if_neg h1] at h
        by_cases h2 : p.duration > INSIGHTS_MAX_WAIT_TO_FINISH_SECONDS ∧
            p.async_status ≠ "Job Completed"
        · rw [if_pos h2] at h
          simp only [Option.some.injEq, Except.error.injEq] at h
          subst h
          exact ⟨rfl, rfl⟩
        · rw [if_neg h2] at h
          exact ih (some p.async_status) e h

theorem backoff_no_retry {α : Type} (f : Nat → Except PyErr α) (e : PyErr)
    (fuel : Nat) (h0 : f 0 = .error e) (hr : jobParamsRetryOn e = false) :
    backoff_run jobParamsRetryOn f 0 fuel = .error e := by
  unfold backoff_run
  rw [h0]
  cases fuel with
  | zero => rfl
  | succ n => simp [hr]

/- Claim theorems -/

/-- C1: for any sequence of `advance` calls with dates `d1..dn` on a fixed
stream, the stored cursor afterwards equals `max(d1..dn, initial)` — it is
the fold of `max` over the dates starting from the initial cursor, an upper
bound of the initial cursor and of every date, and attained at the initial
cursor or one of the dates — independently of call order; a single
`advance` moves the cursor to `max(current, candidate)`, leaves the whole
state unchanged unless the candidate is strictly greater (so replays are
no-ops), and returns the snapshot of the entire mapping. -/
theorem watermark_advance_max (st : State) (s : String) (ds ds2 : List Int)
    (hperm : ds.Perm ds2) :
    ((State.advances st s ds).cursor_get s = ds.foldl max (st.cursor_get s)
      ∧ st.cursor_get s ≤ (State.advances st s ds).cursor_get s
      ∧ (∀ d ∈ ds, d ≤ (State.advances st s ds).cursor_get s)
      ∧ ((State.advances st s ds).cursor_get s = st.cursor_get s
          ∨ (State.advances st s ds).cursor_get s ∈ ds))
    ∧ (State.advances st s ds).cursor_get s = (State.advances st s ds2).cursor_get s
    ∧ (∀ d, ((st.advance s d).1).cursor_get s = max (st.cursor_get s) d)
    ∧ (∀ d, ¬ st.cursor_get s < d → (st.advance s d).1 = st)
    ∧ (∀ d, (st.advance s d).2 = ((st.advance s d).1).state) := by
  refine ⟨⟨advances_cursor st s ds, ?_, ?_, ?_⟩, ?_, advance_cursor st s, ?_, fun d => rfl⟩
  · rw [advances_cursor]
    exact le_foldl_max _ _
  · intro d hd
    rw [advances_cursor]
    exact mem_le_foldl_max d ds hd _
  · rw [advances_cursor]
    exact foldl_max_mem _ _
  · rw [advances_cursor, advances_cursor]
    exact foldl_max_perm _ _ _ hperm
  · intro d h
    show (if d > st.cursor_get s then _ else st) = st
    rw [if_neg h]

/-- Witness for C1 at the concrete state `⟨0, []⟩`, stream `ads_insights`
and advance sequences `[3, 1, 2]` and its permutation `[2, 3, 1]`. -/
theorem watermark_advance_max_witness :
    ([3, 1, 2] : List Int).Perm [2, 3, 1]
    ∧ (State.advances ⟨0, []⟩ "ads_insights" [3, 1, 2]).cursor_get "ads_insights"
        = ([3, 1, 2] : List Int).foldl max ((⟨0, []⟩ : State).cursor_get "ads_insights")
    ∧ (State.advances ⟨0, []⟩ "ads_insights" [3, 1, 2]).cursor_get "ads_insights"
        = (State.advances ⟨0, []⟩ "ads_insights" [2, 3, 1]).cursor_get "ads_insights"
    ∧ (State.advances ⟨0, []⟩ "ads_insights" [3, 1, 2]).cursor_get "ads_insights" = 3 := by
  have h := watermark_advance_max ⟨0, []⟩ "ads_insights" [3, 1, 2] [2, 3, 1] (by decide)
  exact ⟨by decide, h.1.1, h.2.1, by decide⟩

/-- C2: on a window yielding the records dated 2021-01-03, 2021-01-01 and
2021-01-02, the code does track the minimum `date_start` (2021-01-01) and
emits all three record messages first — but the checkpoint step then calls
`self.state.update`, a method `State` does not define, so the iteration
raises AttributeError after the records instead of advancing the watermark
and emitting the checkpoint, and the state is left untouched. -/
theorem insights_checkpoint_update_bug :
    ads_insights_iter "ads_insights" ⟨0, []⟩
        [[[("date_start", .pyStr "2021-01-03")],
          [("date_start", .pyStr "2021-01-01")],
          [("date_start", .pyStr "2021-01-02")]]]
      = ([.record "ads_insights" [("date_start", .pyStr "2021-01-03")],
          .record "ads_insights" [("date_start", .pyStr "2021-01-01")],
          .record "ads_insights" [("date_start", .pyStr "2021-01-02")]],
         ⟨0, []⟩,
         some (.attributeError "State object has no attribute update"))
    ∧ (window_iter "ads_insights" none
        [[("date_start", PyVal.pyStr "2021-01-03")],
         [("date_start", PyVal.pyStr "2021-01-01")],
         [("date_start", PyVal.pyStr "2021-01-02")]]).2.1
      = some (.pyStr "2021-01-01") :=
  ⟨rfl, rfl⟩

/-- C3: the claim's second half holds (a field whose type set lacks
`"null"` raises when absent), but its first half fails on the code: for a
field typed `["string", "null"]` absent from the row, `transform_fields`
still evaluates `row[field_name]` inside the coercion loop, catches the
KeyError, and raises from the aggregation branch (an AttributeError in
Python 3, since `KeyError` has no `message` attribute) instead of
succeeding with the key omitted. -/
theorem nullable_absent_field_bug :
    transform_fields [] [("f", ⟨some (.many ["string", "null"]), none⟩)]
      = .error (.attributeError "KeyError object has no attribute message")
    ∧ transform_fields [] [("g", ⟨some (.many ["integer"]), none⟩)]
      = .error (.valueError "g not in row and not null") :=
  ⟨rfl, rfl⟩

/-- C4: first-success coercion in declared order holds (raw `"42"` under
`["integer"]` yields integer 42; under `["string", "integer"]` the string
identity wins first), but when every candidate type fails the code does not
raise the described ValueError naming the field: the `e.message` access in
the aggregation branch raises AttributeError under Python 3, so raw
`"abc"` under `["integer"]` produces an AttributeError that names neither
the field nor the per-type failures. -/
theorem coercion_first_success_bug :
    transform_fields [("f", .pyStr "42")] [("f", ⟨some (.many ["integer"]), none⟩)]
      = .ok [("f", .pyInt 42)]
    ∧ transform_fields [("f", .pyStr "42")]
        [("f", ⟨some (.many ["string", "integer"]), none⟩)]
      = .ok [("f", .pyStr "42")]
    ∧ transform_fields [("f", .pyStr "abc")] [("f", ⟨some (.many ["integer"]), none⟩)]
      = .error (.attributeError "ValueError object has no attribute message") :=
  ⟨rfl, rfl, rfl⟩

/-- C5: with the watermark at day 0 and the clock frozen at day N, the
Window Scheduler produces exactly N+1 windows; window i has
`since = -28 + i` and `until = i`, so every window spans exactly 28 days,
the first window is `[until0 - 28, until0]`, and consecutive windows shift
both bounds by exactly one day. -/
theorem window_scheduler_coverage (cfg : AdsInsightsCfg) (N : Nat)
    (ws : List InsightsParams) (hws : ws = job_params cfg ⟨0, []⟩ (N : Int)) :
    ws.length = N + 1
    ∧ (∀ i (h : i < ws.length),
        ws[i].time_ranges = [⟨(0 : Int) - 28 + (i : Int), (i : Int)⟩])
    ∧ (∀ i (h : i < ws.length),
        (ws[i].time_ranges.headD ⟨0, 0⟩).untilDate
          - (ws[i].time_ranges.headD ⟨0, 0⟩).since = 28)
    ∧ (∀ i (h1 : i < ws.length) (h2 : i + 1 < ws.length),
        (ws[i + 1].time_ranges.headD ⟨0, 0⟩).since
            = (ws[i].time_ranges.headD ⟨0, 0⟩).since + 1
        ∧ (ws[i + 1].time_ranges.headD ⟨0, 0⟩).untilDate
            = (ws[i].time_ranges.headD ⟨0, 0⟩).untilDate + 1) := by
  have hw : ws = (List.range (N + 1)).map
      (fun k : Nat => mkJobParams cfg ((0 : Int) - 28 + (k : Int)) ((0 : Int) + (k : Int))) := by
    rw [hws]
    show job_params_loop cfg (N : Int) ((0 : Int) - 28) (0 : Int) = _
    exact job_params_loop_eq cfg (N : Int) (N + 1) ((0 : Int) - 28) 0 (by omega)
  have hlen : ws.length = N + 1 := by
    rw [hw, List.length_map, List.length_range]
  have key : ∀ (i : Nat) (h : i < ws.length),
      ws[i] = mkJobParams cfg ((0 : Int) - 28 + (i : Int)) ((0 : Int) + (i : Int)) := by
    intro i h
    have h2 : i < N + 1 := by rw [← hlen]; exact h
    rw [List.getElem_of_eq hw h]
    simp [List.getElem_map, List.getElem_range]
  refine ⟨hlen, ?_, ?_, ?_⟩
  · intro i h
    rw [key i h]
    show [(⟨(0 : Int) - 28 + (i : Int), (0 : Int) + (i : Int)⟩ : TimeRange)] = _
    norm_num
  · intro i h
    rw [key i h]
    show ((0 : Int) + (i : Int)) - ((0 : Int) - 28 + (i : Int)) = 28
    ring
  · intro i h1 h2
    rw [key i h1, key (i + 1) h2]
    constructor
    · show (0 : Int) - 28 + ((i : Nat) + 1 : Nat) = (0 : Int) - 28 + (i : Int) + 1
      push_cast
      ring
    · show (0 : Int) + ((i : Nat) + 1 : Nat) = (0 : Int) + (i : Int) + 1
      push_cast
      ring

/-- Witness for C5 at the sample configuration with the clock frozen at
day 2: the scheduler yields three windows. -/
theorem window_scheduler_coverage_witness :
    (job_params sampleCfg ⟨0, []⟩ ((2 : Nat) : Int)).length = 2 + 1 :=
  (window_scheduler_coverage sampleCfg 2 _ rfl).1

/-- C6 (amended): a poll observed past the 5-minute start deadline with
percent-complete still 0 raises the start-timeout failure; a poll past the
30-minute finish deadline with status not completed raises the
finish-timeout failure provided percent-complete is nonzero (otherwise the
start-timeout branch fires first, see the counterexample); a job observed
completed before either deadline returns with no error. -/
theorem run_job_timeout_classification (job_id : String) (status : Option String)
    (p : JobPoll) (rest : List JobPoll) (hs : status ≠ some "Job Completed") :
    (p.duration > INSIGHTS_MAX_WAIT_TO_START_SECONDS →
      p.async_percent_completion = 0 →
      run_job job_id status (p :: rest)
        = some (.error (.genericException (startTimeoutMsg job_id))))
    ∧ (p.duration > INSIGHTS_MAX_WAIT_TO_FINISH_SECONDS →
        p.async_status ≠ "Job Completed" → p.async_percent_completion ≠ 0 →
        run_job job_id status (p :: rest)
          = some (.error (.genericException (finishTimeoutMsg job_id))))
    ∧ (p.async_status = "Job Completed" →
        p.duration ≤ INSIGHTS_MAX_WAIT_TO_START_SECONDS →
        run_job job_id status (p :: rest) = some (.ok ())) := by
  rw [run_job_cons job_id status p rest hs]
  refine ⟨?_, ?_, ?_⟩
  · intro hd hp
    rw [if_pos ⟨hd, hp⟩]
  · intro hd hst hp
    rw [if_neg (by intro hc; exact hp hc.2), if_pos ⟨hd, hst⟩]
  · intro hst hd
    have hd2 : ¬ p.duration > INSIGHTS_MAX_WAIT_TO_START_SECONDS := not_lt.mpr hd
    have hd3 : ¬ p.duration > INSIGHTS_MAX_WAIT_TO_FINISH_SECONDS := by
      unfold INSIGHTS_MAX_WAIT_TO_START_SECONDS at hd
      unfold INSIGHTS_MAX_WAIT_TO_FINISH_SECONDS
      omega
    rw [if_neg (by intro hc; exact hd2 hc.1), if_neg (by intro hc; exact hd3 hc.1)]
    unfold run_job
    rw [if_pos (by rw [hst])]

/-- Counterexample for C6 as stated: at 1801 elapsed seconds with status
`Started` (not completed) the claim requires a finish-timeout, but with
percent-complete 0 the code raises the start-timeout instead. -/
theorem run_job_timeout_counterexample :
    run_job "1" none [⟨1801, "Started", 0⟩]
      = some (.error (.genericException (startTimeoutMsg "1")))
    ∧ run_job "1" none [⟨1801, "Started", 0⟩]
        ≠ some (.error (.genericException (finishTimeoutMsg "1")))
    ∧ (1801 : Int) > INSIGHTS_MAX_WAIT_TO_FINISH_SECONDS
    ∧ ("Started" : String) ≠ "Job Completed" := by
  refine ⟨rfl, ?_, by decide, by decide⟩
  intro h
  rw [show run_job "1" none [⟨1801, "Started", 0⟩]
      = some (.error (.genericException (startTimeoutMsg "1"))) from rfl] at h
  simp only [Option.some.injEq, Except.error.injEq, PyErr.genericException.injEq] at h
  exact absurd h (by decide)

/-- Witness for C6 at three concrete polling traces: start-timeout at
301 seconds with percent 0, finish-timeout at 1801 seconds at 50 percent,
and clean completion at 200 seconds. -/
theorem run_job_timeout_classification_witness :
    run_job "1" none [⟨301, "Started", 0⟩]
      = some (.error (.genericException (startTimeoutMsg "1")))
    ∧ run_job "1" none [⟨1801, "Started", 50⟩]
        = some (.error (.genericException (finishTimeoutMsg "1")))
    ∧ run_job "1" none [⟨200, "Job Completed", 100⟩] = some (.ok ()) := by
  refine ⟨?_, ?_, ?_⟩
  · exact (run_job_timeout_classification "1" none ⟨301, "Started", 0⟩ []
      (by simp)).1 (by decide) rfl
  · exact (run_job_timeout_classification "1" none ⟨1801, "Started", 50⟩ []
      (by simp)).2.1 (by decide) (by decide) (by decide)
  · exact (run_job_timeout_classification "1" none ⟨200, "Job Completed", 100⟩ []
      (by simp)).2.2 rfl (by decide)

/-- C7 (amended): the backoff decorator (3 tries, factor 2) sits on the
window-parameter generator `job_params` and designates exactly the
`InsightsJobTimeout` class for retry; but every error `run_job` raises is
the generic `Exception` class — never the designated signal — so the
decorated retry can never trigger on a timeout, and a non-designated error
propagates after its first attempt regardless of remaining tries. -/
theorem backoff_and_timeout_types :
    backoff_max_tries = 3
    ∧ backoff_factor = 2
    ∧ (∀ e : PyErr, jobParamsRetryOn e = true ↔ e.className = "InsightsJobTimeout")
    ∧ (∀ (job_id : String) (polls : List JobPoll) (status : Option String) (e : PyErr),
        run_job job_id status polls = some (.error e) →
        e.className = "Exception" ∧ jobParamsRetryOn e = false)
    ∧ (∀ (f : Nat → Except PyErr Unit) (e : PyErr) (fuel : Nat),
        f 0 = .error e → jobParamsRetryOn e = false →
        backoff_run jobParamsRetryOn f 0 fuel = .error e) := by
  refine ⟨rfl, rfl, ?_, ?_, ?_⟩
  · intro e
    cases e <;> simp [jobParamsRetryOn, PyErr.className]
  · intro job_id polls status e h
    exact run_job_error_generic job_id polls status e h
  · intro f e fuel h0 hr
    exact backoff_no_retry f e fuel h0 hr

/-- Counterexample for C7 as stated: the start-timeout and finish-timeout
raised by `run_job` have the same Python class (`Exception`), not distinct
named failure types, and neither is the `InsightsJobTimeout` signal the
decorator retries on. -/
theorem timeout_types_counterexample :
    (PyErr.genericException (startTimeoutMsg "1")).className
      = (PyErr.genericException (finishTimeoutMsg "1")).className
    ∧ run_job "1" none [⟨301, "Started", 0⟩]
        = some (.error (.genericException (startTimeoutMsg "1")))
    ∧ run_job "1" none [⟨1801, "Started", 50⟩]
        = some (.error (.genericException (finishTimeoutMsg "1")))
    ∧ jobParamsRetryOn (.genericException (startTimeoutMsg "1")) = false
    ∧ jobParamsRetryOn (.genericException (finishTimeoutMsg "1")) = false :=
  ⟨rfl, rfl, rfl, rfl, rfl⟩

/-- Witness for C7 at a concrete trace and a concrete non-designated
error: the start-timeout error is classified `Exception`, is not the retry
signal, and `backoff_run` returns it unretried with fuel remaining. -/
theorem backoff_and_timeout_types_witness :
    ((PyErr.genericException (startTimeoutMsg "1")).className = "Exception"
      ∧ jobParamsRetryOn (.genericException (startTimeoutMsg "1")) = false)
    ∧ backoff_run jobParamsRetryOn
        (fun _ => (.error (.genericException (startTimeoutMsg "1")) : Except PyErr Unit)) 0 2
      = .error (.genericException (startTimeoutMsg "1")) := by
  have h := backoff_and_timeout_types
  refine ⟨h.2.2.2.1 "1" [⟨301, "Started", 0⟩] none _ rfl, ?_⟩
  exact h.2.2.2.2 (fun _ => .error (.genericException (startTimeoutMsg "1")))
    (.genericException (startTimeoutMsg "1")) 2 rfl rfl

/-- C8: a window yielding zero records does not leave the checkpoint step
silent — the code unconditionally executes the checkpoint call
(`self.state.update(self.name, None)`, the intended `advance`, with the
minimum still `None`) after every window, and that call raises
AttributeError; the watermark is left unchanged only because the call
fails before touching it. -/
theorem empty_window_checkpoint_bug :
    ads_insights_iter "ads_insights" ⟨0, []⟩ [[]]
      = ([], ⟨0, []⟩, some (.attributeError "State object has no attribute update"))
    ∧ (window_iter "ads_insights" none ([] : List Row)).2.1 = none :=
  ⟨rfl, rfl⟩

/-- C9 (amended): `transform_field` alone raises
`ValueError("Unsuppported type t")` for a type outside the five recognized
kinds (when no `date-time` format short-circuits), but `transform_fields`
catches it in the same broad per-type handler as data errors: with a later
listed type the record can succeed outright, and when every type fails the
raised error is the ordinary aggregation failure (an AttributeError in
Python 3), not a distinct configuration error. -/
theorem unknown_type_handling :
    (∀ (v : PyVal) (t : String),
        t ∉ (["boolean", "integer", "number", "string"] : List String) →
        transform_field v t none = .error (.valueError ("Unsuppported type " ++ t)))
    ∧ transform_fields [("f", .pyStr "x")] [("f", ⟨some (.many ["frob"]), none⟩)]
      = .error (.attributeError "ValueError object has no attribute message") := by
  constructor
  · intro v t ht
    simp only [List.mem_cons, List.not_mem_nil, or_false, not_or] at ht
    obtain ⟨h1, h2, h3, h4⟩ := ht
    simp [transform_field, h1, h2, h3, h4]
  · rfl

/-- Counterexample for C9 as stated: a field declaring the unrecognized
type `frob` ahead of `string` does not fail hard at all — the unknown-type
ValueError is caught and the string coercion succeeds. -/
theorem unknown_type_counterexample :
    transform_fields [("f", .pyStr "x")]
        [("f", ⟨some (.many ["frob", "string"]), none⟩)]
      = .ok [("f", .pyStr "x")] :=
  rfl

/-- Witness for C9 at the unrecognized type `frob` on the value `"x"`. -/
theorem unknown_type_handling_witness :
    ("frob" : String) ∉ (["boolean", "integer", "number", "string"] : List String)
    ∧ transform_field (.pyStr "x") "frob" none
      = .error (.valueError ("Unsuppported type " ++ "frob")) :=
  ⟨by decide, unknown_type_handling.1 (.pyStr "x") "frob" (by decide)⟩

/-- C10: a field whose format is `date-time` is returned by
`transform_field` completely unmodified, whatever its declared type; at the
record level a value that would fail its declared type (`"abc"` under
`integer`) is accepted as-is. -/
theorem date_time_passthrough :
    (∀ (v : PyVal) (t : String), transform_field v t (some "date-time") = .ok v)
    ∧ transform_fields [("f", .pyStr "abc")]
        [("f", ⟨some (.one "integer"), some "date-time"⟩)]
      = .ok [("f", .pyStr "abc")] := by
  constructor
  · intro v t
    simp [transform_field]
  · rfl

end TapFacebook
